import Mathlib

/-!
Shallow embedding of `src/app.py` (the Mirrors By Reflect management
portal): the SKU catalog store, the catalog editor (upsert/delete), the
bulk merge, and the shipment calculator with its utilization metrics.

Modelling conventions.  Python ints and floats are modelled as exact
rationals `ℚ`.  Python `round(x, n)` and decimal string formatting round
half to even; this is `roundHalfEven` / `roundTo` below.  A pandas
`DataFrame` holding the catalog is its column header plus its list of
rows; the CSV persistence target `sku_database.csv` is a `FileState`
(missing file, zero-byte file, or a written table), with the cell-level
text codec of `to_csv` / `read_csv` abstracted as exact (it returns the
values it was given).  A raised exception that the code does not catch
(the `IndexError` from `.iloc[0]` on an empty selection) is modelled as
`none`.
-/

/-- A catalog row in the canonical schema of `app.py`. -/
structure SkuRecord where
  Item : String
  SKU : String
  L_mm : ℚ
  W_mm : ℚ
  H_mm : ℚ
  Weight_kg : ℚ
deriving DecidableEq, Repr

/-- A pandas DataFrame specialised to the catalog schema: the column
header plus the data rows. -/
structure DataFrame where
  columns : List String
  rows : List SkuRecord
deriving DecidableEq, Repr

/-- The canonical column set used throughout `app.py` (line 14). -/
def canonicalColumns : List String :=
  ["Item", "SKU", "L_mm", "W_mm", "H_mm", "Weight_kg"]

/-- State of the persistence target `sku_database.csv`. -/
inductive FileState where
  | missing : FileState
  | emptyFile : FileState
  | table : List String → List SkuRecord → FileState
deriving DecidableEq, Repr

/-- `load_data` (app.py lines 10-14): `pd.read_csv` succeeds on a written
table; `FileNotFoundError` (missing file) and `pd.errors.EmptyDataError`
(zero-byte file) both fall through to the empty DataFrame with the
canonical columns. -/
def load_data : FileState → DataFrame
  | .missing => ⟨canonicalColumns, []⟩
  | .emptyFile => ⟨canonicalColumns, []⟩
  | .table h rs => ⟨h, rs⟩

/-- `save_data` (app.py lines 16-17): `df.to_csv` writes the header and
all rows, overwriting the target. -/
def save_data (df : DataFrame) : FileState := .table df.columns df.rows

/-- Round half to even, the rounding used by Python `round` and by
decimal string formatting. -/
def roundHalfEven (q : ℚ) : ℤ :=
  if q - (⌊q⌋ : ℚ) < 1/2 then ⌊q⌋
  else if (1 : ℚ)/2 < q - (⌊q⌋ : ℚ) then ⌊q⌋ + 1
  else if ⌊q⌋ % 2 = 0 then ⌊q⌋ else ⌊q⌋ + 1

/-- Python `round(q, n)` / formatting to `n` decimal places. -/
def roundTo (n : ℕ) (q : ℚ) : ℚ := (roundHalfEven (q * 10 ^ n) : ℚ) / 10 ^ n

/-- The `sku_form` submit handler (app.py lines 115-124).  Python's
`if f_sku:` is true exactly when the string is non-empty; on success the
rows whose SKU equals the submitted one are filtered out, the new row is
appended, and the result is persisted; otherwise the error
"SKU Code is required." is shown and nothing changes.  Returns the new
session db, the new file state, and the error message if any. -/
def skuFormSubmit (db : DataFrame) (file : FileState) (r : SkuRecord) :
    DataFrame × FileState × Option String :=
  if r.SKU ≠ "" then
    let db2 : DataFrame := ⟨db.columns, (db.rows.filter fun x => x.SKU != r.SKU) ++ [r]⟩
    (db2, save_data db2, none)
  else
    (db, file, some "SKU Code is required.")

/-- The Confirm Delete handler (app.py lines 130-134): drop every row
with the given SKU and persist. -/
def deleteSku (db : DataFrame) (s : String) : DataFrame × FileState :=
  let db2 : DataFrame := ⟨db.columns, db.rows.filter fun x => x.SKU != s⟩
  (db2, save_data db2)

/-- `drop_duplicates(subset=['SKU'], keep='last')` (app.py line 163): a
row is kept exactly when no later row carries the same SKU. -/
def dedupLast : List SkuRecord → List SkuRecord
  | [] => []
  | r :: rest =>
    if rest.any fun x => x.SKU == r.SKU then dedupLast rest
    else r :: dedupLast rest

/-- The bulk-merge combination (app.py line 163): concatenate the session
rows with the uploaded rows, then deduplicate by SKU keeping the last
occurrence. -/
def merge (cat incoming : List SkuRecord) : List SkuRecord :=
  dedupLast (cat ++ incoming)

/-- The Confirm Bulk Import handler (app.py lines 162-167): build the
combined table, store it in the session and persist it.  No validation
of any incoming row is performed. -/
def bulkImport (db : DataFrame) (bulk : List SkuRecord) : DataFrame × FileState :=
  let combined : DataFrame := ⟨db.columns, merge db.rows bulk⟩
  (combined, save_data combined)

/-- Unit volume in cubic meters (app.py line 64):
`(L_mm * W_mm * H_mm) / 1_000_000_000`. -/
def unit_cbm (r : SkuRecord) : ℚ := r.L_mm * r.W_mm * r.H_mm / 1000000000

/-- One displayed purchase-order line (app.py lines 68-75): volumes are
rounded to 4 decimals and the weight to 2 for display. -/
structure ShipmentLine where
  SKU : String
  Item : String
  Quantity : ℕ
  unitCBM : ℚ
  totalCBM : ℚ
  totalWeightKg : ℚ
deriving DecidableEq, Repr

/-- The dict appended to `shipment_items` for record `r` selected under
SKU name `s` at quantity `q` (app.py lines 68-75). -/
def mkLine (s : String) (r : SkuRecord) (q : ℕ) : ShipmentLine :=
  { SKU := s, Item := r.Item, Quantity := q,
    unitCBM := roundTo 4 (unit_cbm r),
    totalCBM := roundTo 4 (unit_cbm r * q),
    totalWeightKg := roundTo 2 (r.Weight_kg * q) }

/-- The `for sku in selected_skus` loop (app.py lines 57-75), carrying
the accumulated `shipment_items` and the unrounded running `total_cbm`.
The lookup `db[db['SKU'] == sku].iloc[0]` takes the first matching row
and raises `IndexError` when there is none; the raise is `none`. -/
def shipLoop (db : DataFrame) :
    List (String × ℕ) → List ShipmentLine → ℚ → Option (List ShipmentLine × ℚ)
  | [], items, tot => some (items, tot)
  | (s, q) :: rest, items, tot =>
    match db.rows.find? fun x => x.SKU == s with
    | none => none
    | some r => shipLoop db rest (items ++ [mkLine s r q]) (tot + unit_cbm r * q)

/-- The shipment computation: run the loop over the selection, producing
the displayed lines and the unrounded aggregate volume. -/
def computeShipment (db : DataFrame) (sel : List (String × ℕ)) :
    Option (List ShipmentLine × ℚ) :=
  shipLoop db sel [] 0

/-- The fixed container capacities in cubic meters (app.py line 46). -/
def containers : List (String × ℚ) := [("20ft", 28), ("40ft", 58), ("40ft HC", 65)]

/-- The utilization metrics loop (app.py lines 82-85): for each
container, the percent `(total_cbm / cap) * 100`, the remaining volume
`cap - total_cbm` shown as the delta, and whether the normal (not
inverse) color is used, i.e. `util <= 100`. -/
def utilizationMetrics (total : ℚ) : List (String × ℚ × ℚ × Bool) :=
  containers.map fun nc =>
    (nc.1, total / nc.2 * 100, nc.2 - total, decide (total / nc.2 * 100 ≤ 100))

/-- The Total Load subheader value (app.py line 78): `total_cbm`
formatted with three decimal places. -/
def displayTotalLoad (total : ℚ) : ℚ := roundTo 3 total

/-- The whole calculator tab on a non-empty selection (app.py lines
56-85): the purchase-order lines, the displayed total, and the
utilization metrics, the latter computed from the unrounded aggregate. -/
def calculatorTab (db : DataFrame) (sel : List (String × ℕ)) :
    Option (List ShipmentLine × ℚ × List (String × ℚ × ℚ × Bool)) :=
  match computeShipment db sel with
  | none => none
  | some (lines, tot) => some (lines, displayTotalLoad tot, utilizationMetrics tot)

/-- Apply a sequence of `sku_form` submissions, threading the session db
and the persisted file through each handler call. -/
def applyUpserts (ops : List SkuRecord) (db : DataFrame) (file : FileState) :
    DataFrame × FileState :=
  ops.foldl (fun st r =>
    let res := skuFormSubmit st.1 st.2 r
    (res.1, res.2.1)) (db, file)

/-- The SKU column of a row list. -/
def skus (rows : List SkuRecord) : List String := rows.map fun r => r.SKU

/-- The exact (unrounded) volume contribution of one selection entry: the
unit volume of the first matching row times the quantity, `0` when the
SKU is absent.  Used to state what the running total adds up to. -/
def exactLine (db : DataFrame) (p : String × ℕ) : ℚ :=
  match db.rows.find? fun x => x.SKU == p.1 with
  | some r => unit_cbm r * p.2
  | none => 0

/-- An empty session db with the canonical columns. -/
def emptyDb : DataFrame := ⟨canonicalColumns, []⟩

/-- Fixture: SKU "A" with weight 1. -/
def recA1 : SkuRecord :=
  { Item := "Arch Mirror", SKU := "A", L_mm := 500, W_mm := 400, H_mm := 50, Weight_kg := 1 }

/-- Fixture: SKU "A" again, with weight 2. -/
def recA2 : SkuRecord :=
  { Item := "Arch Mirror v2", SKU := "A", L_mm := 500, W_mm := 400, H_mm := 50, Weight_kg := 2 }

/-- Fixture: a one-meter cube, unit volume exactly 1 CBM. -/
def cubeRec : SkuRecord :=
  { Item := "Cube Mirror", SKU := "CUBE", L_mm := 1000, W_mm := 1000, H_mm := 1000, Weight_kg := 10 }

/-- Fixture: a catalog holding only the cube record. -/
def cubeDb : DataFrame := ⟨canonicalColumns, [cubeRec]⟩

/-- Fixture: a record whose SKU is the empty string. -/
def blankRec : SkuRecord :=
  { Item := "No Code", SKU := "", L_mm := 10, W_mm := 10, H_mm := 10, Weight_kg := 1 }

/-- Fixture: a record whose SKU is a single space (whitespace-only). -/
def spaceRec : SkuRecord :=
  { Item := "Space Code", SKU := " ", L_mm := 10, W_mm := 10, H_mm := 10, Weight_kg := 1 }

/-- Fixture: a record with unit volume 0.00012 CBM, which rounds
differently at three and at four decimal places. -/
def smallRec : SkuRecord :=
  { Item := "Small Mirror", SKU := "S", L_mm := 100, W_mm := 100, H_mm := 12, Weight_kg := 1 }

/-- Fixture: a catalog holding only the small record. -/
def smallDb : DataFrame := ⟨canonicalColumns, [smallRec]⟩

/-! Helper lemmas shared by several results. -/

/-- Looking a SKU up in the deduplicated list finds exactly the last
occurrence of that SKU in the original list. -/
theorem dedupLast_find (l : List SkuRecord) (s : String) :
    (dedupLast l).find? (fun x => x.SKU == s)
      = l.reverse.find? (fun x => x.SKU == s) := by
  induction l with
  | nil => rfl
  | cons r rest ih =>
    rw [List.reverse_cons, List.find?_append]
    by_cases hdup : (rest.any fun x => x.SKU == r.SKU) = true
    · rw [dedupLast, if_pos hdup, ih]
      by_cases hs : r.SKU = s
      · subst hs
        rcases List.any_eq_true.1 hdup with ⟨x, hx, hxs⟩
        have hsome : (rest.reverse.find? fun y => y.SKU == r.SKU).isSome := by
          exact List.find?_isSome.2 ⟨x, List.mem_reverse.2 hx, hxs⟩
        rcases Option.isSome_iff_exists.1 hsome with ⟨a, ha⟩
        rw [ha]
        rfl
      · have hb : (r.SKU == s) = false := by simp [hs]
        have hr : ([r].find? fun x => x.SKU == s) = none := by
          simp [List.find?, hb]
        rw [hr]
        cases rest.reverse.find? fun x => x.SKU == s <;> rfl
    · rw [dedupLast, if_neg hdup]
      have hnone : ∀ x ∈ rest, ¬ (x.SKU == r.SKU) = true := by
        intro x hx hxe
        exact hdup (List.any_eq_true.2 ⟨x, hx, hxe⟩)
      by_cases hs : r.SKU = s
      · subst hs
        have h1 : (rest.reverse.find? fun x => x.SKU == r.SKU) = none := by
          exact List.find?_eq_none.2 fun x hx => hnone x (List.mem_reverse.1 hx)
        rw [h1, List.find?_cons_of_pos _ (by simp)]
        simp [List.find?]
      · rw [List.find?_cons_of_neg _ (by simp [hs]), ih]
        have hb : (r.SKU == s) = false := by simp [hs]
        have hr : ([r].find? fun x => x.SKU == s) = none := by
          simp [List.find?, hb]
        rw [hr]
        cases rest.reverse.find? fun x => x.SKU == s <;> rfl

/-- When the right list of a pointwise relation holds `b`, some element
of the left list is related to it. -/
theorem forall2_mem_right {α β : Type} {R : α → β → Prop} :
    ∀ {l1 : List α} {l2 : List β}, List.Forall₂ R l1 l2 →
      ∀ b ∈ l2, ∃ a ∈ l1, R a b := by
  intro l1 l2 h
  induction h with
  | nil => intro b hb; cases hb
  | @cons a b l1t l2t hr _ ih =>
    intro c hc
    rcases List.mem_cons.1 hc with rfl | hc
    · exact ⟨a, List.mem_cons_self a l1t, hr⟩
    · rcases ih c hc with ⟨a2, ha2, hra⟩
      exact ⟨a2, List.mem_cons_of_mem a ha2, hra⟩

/-- When the left list of a pointwise relation holds `a`, some element of
the right list is related to it. -/
theorem forall2_mem_left {α β : Type} {R : α → β → Prop} :
    ∀ {l1 : List α} {l2 : List β}, List.Forall₂ R l1 l2 →
      ∀ a ∈ l1, ∃ b ∈ l2, R a b := by
  intro l1 l2 h
  induction h with
  | nil => intro a ha; cases ha
  | @cons a b l1t l2t hr _ ih =>
    intro c hc
    rcases List.mem_cons.1 hc with rfl | hc
    · exact ⟨b, List.mem_cons_self b l2t, hr⟩
    · rcases ih c hc with ⟨b2, hb2, hrb⟩
      exact ⟨b2, List.mem_cons_of_mem b hb2, hrb⟩

/-- Relation between one selection entry and the purchase-order line the
loop body emits for it. -/
def lineRel (db : DataFrame) (p : String × ℕ) (l : ShipmentLine) : Prop :=
  ∃ r, db.rows.find? (fun x => x.SKU == p.1) = some r ∧ l = mkLine p.1 r p.2

/-- Characterisation of a successful run of the shipment loop: the lines
extend the accumulator pointwise along the selection, and the final total
adds the exact (unrounded) contributions of the selection to the starting
total. -/
theorem shipLoop_some (db : DataFrame) :
    ∀ (sel : List (String × ℕ)) (items lines : List ShipmentLine) (tot T : ℚ),
      shipLoop db sel items tot = some (lines, T) →
      ∃ lines2, lines = items ++ lines2
        ∧ List.Forall₂ (lineRel db) sel lines2
        ∧ T = tot + (sel.map (exactLine db)).sum := by
  intro sel
  induction sel with
  | nil =>
    intro items lines tot T h
    rw [shipLoop] at h
    injection h with h2
    injection h2 with hl ht
    exact ⟨[], by simp [hl.symm], List.Forall₂.nil, by simp [ht.symm]⟩
  | cons p rest ih =>
    intro items lines tot T h
    obtain ⟨s, q⟩ := p
    rw [shipLoop] at h
    cases hfind : db.rows.find? fun x => x.SKU == s with
    | none => rw [hfind] at h; cases h
    | some r =>
      rw [hfind] at h
      rcases ih (items ++ [mkLine s r q]) lines (tot + unit_cbm r * q) T h with
        ⟨lines2, hl, hrel, ht⟩
      refine ⟨mkLine s r q :: lines2, by simp [hl], ?_, ?_⟩
      · exact List.Forall₂.cons ⟨r, hfind, rfl⟩ hrel
      · rw [ht]
        have hx : exactLine db (s, q) = unit_cbm r * q := by
          rw [exactLine]
          rw [hfind]
        rw [List.map_cons, List.sum_cons, hx]
        ring

/-- One `sku_form` submission preserves uniqueness of the SKU column:
either validation fails and nothing changes, or every row with the
submitted SKU is removed before the new row is appended. -/
theorem skuFormSubmit_nodup (db : DataFrame) (file : FileState) (r : SkuRecord)
    (h : (skus db.rows).Nodup) : (skus (skuFormSubmit db file r).1.rows).Nodup := by
  rw [skuFormSubmit]
  by_cases hs : r.SKU ≠ ""
  · rw [if_pos hs]
    show (skus ((db.rows.filter fun x => x.SKU != r.SKU) ++ [r])).Nodup
    rw [skus, List.map_append]
    rw [List.nodup_append]
    refine ⟨?_, List.nodup_singleton _, ?_⟩
    · exact List.Nodup.sublist (List.Sublist.map _ (List.filter_sublist _)) h
    · intro a ha hb
      simp only [List.map_cons, List.map_nil, List.mem_singleton] at hb
      rcases List.mem_map.1 ha with ⟨x, hx, hxs⟩
      have hne : (x.SKU != r.SKU) = true := (List.mem_filter.1 hx).2
      rw [bne_iff_ne] at hne
      exact hne (hxs.trans hb)
  · rw [if_neg hs]
    exact h

/-- Claim C1: starting from a catalog whose SKU column has no duplicate,
any sequence of sku_form submissions (upserts) leaves at most one record
per distinct SKU value, since each successful upsert first removes every
row with the submitted SKU and then appends the new row. -/
theorem upsert_preserves_sku_uniqueness (ops : List SkuRecord) (db : DataFrame)
    (file : FileState) (h : (skus db.rows).Nodup) :
    (skus (applyUpserts ops db file).1.rows).Nodup := by
  induction ops generalizing db file with
  | nil => exact h
  | cons op rest ih =>
    have hstep := skuFormSubmit_nodup db file op h
    exact ih (skuFormSubmit db file op).1 (skuFormSubmit db file op).2.1 hstep

/-- Witness for C1 at a concrete starting catalog and operation list. -/
theorem upsert_preserves_sku_uniqueness_witness :
    (skus emptyDb.rows).Nodup
    ∧ (skus (applyUpserts [recA2, recA2] emptyDb FileState.missing).1.rows).Nodup :=
  ⟨by decide,
    upsert_preserves_sku_uniqueness [recA2, recA2] emptyDb FileState.missing (by decide)⟩

/-- Claim C2: the bulk merge concatenates the existing catalog with the
incoming rows and deduplicates by SKU keeping the last occurrence, so for
every SKU the surviving record is the last row carrying it in
existing-then-incoming order; any SKU present in the incoming table ends
up with the incoming table's last row for it, and merging SKU "A" with
weight 1 against incoming SKU "A" with weight 2 keeps weight 2. -/
theorem merge_last_wins :
    (∀ (cat inc : List SkuRecord) (s : String),
        (merge cat inc).find? (fun x => x.SKU == s)
          = (cat ++ inc).reverse.find? (fun x => x.SKU == s))
    ∧ (∀ (cat inc : List SkuRecord) (s : String) (r : SkuRecord),
        inc.reverse.find? (fun x => x.SKU == s) = some r →
        (merge cat inc).find? (fun x => x.SKU == s) = some r)
    ∧ (merge [recA1] [recA2]).find? (fun x => x.SKU == "A") = some recA2
    ∧ recA1.Weight_kg = 1 ∧ recA2.Weight_kg = 2 := by
  refine ⟨?_, ?_, by decide, rfl, rfl⟩
  · intro cat inc s
    exact dedupLast_find (cat ++ inc) s
  · intro cat inc s r h
    rw [merge, dedupLast_find, List.reverse_append, List.find?_append, h]
    rfl

/-- Witness for C2's conditional part at a concrete pair of tables. -/
theorem merge_last_wins_witness :
    ([recA2].reverse.find? (fun x => x.SKU == "A") = some recA2)
    ∧ (merge [recA1] [recA2]).find? (fun x => x.SKU == "A") = some recA2 :=
  ⟨by decide, merge_last_wins.2.1 [recA1] [recA2] "A" recA2 (by decide)⟩

/-- Claim C8: saving the catalog and loading it back reproduces the same
catalog, record for record. -/
theorem save_load_roundtrip (df : DataFrame) : load_data (save_data df) = df := rfl

/-- Claim C9: loading from a missing or zero-byte persistence target does
not fail: both cases yield a catalog with zero records that still carries
the full canonical column set. -/
theorem load_missing_or_empty :
    (load_data FileState.missing).rows = []
    ∧ (load_data FileState.missing).columns = canonicalColumns
    ∧ (load_data FileState.emptyFile).rows = []
    ∧ (load_data FileState.emptyFile).columns = canonicalColumns :=
  ⟨rfl, rfl, rfl, rfl⟩

/-- Claim C3: in any successful shipment computation, each selected SKU
that is present in the catalog (quantity at least 1) contributes the line
built from its record, whose unit volume is `(L_mm * W_mm * H_mm) /
1_000_000_000` cubic meters and whose per-line total is unit volume times
quantity (rounded for display); in particular the 1000mm cube has unit
volume exactly 1 CBM and quantity 3 yields an aggregate of exactly 3. -/
theorem shipment_volume_formula :
    (∀ (db : DataFrame) (sel : List (String × ℕ)) (lines : List ShipmentLine)
        (T : ℚ) (s : String) (q : ℕ) (r : SkuRecord),
      computeShipment db sel = some (lines, T) →
      (s, q) ∈ sel → 1 ≤ q →
      db.rows.find? (fun x => x.SKU == s) = some r →
      mkLine s r q ∈ lines
        ∧ unit_cbm r = r.L_mm * r.W_mm * r.H_mm / 1000000000
        ∧ (mkLine s r q).unitCBM = roundTo 4 (unit_cbm r)
        ∧ (mkLine s r q).totalCBM = roundTo 4 (unit_cbm r * q))
    ∧ unit_cbm cubeRec = 1
    ∧ computeShipment cubeDb [("CUBE", 3)] = some ([mkLine "CUBE" cubeRec 3], 3) := by
  have hu : unit_cbm cubeRec = 1 := by norm_num [unit_cbm, cubeRec]
  have hfindc : cubeDb.rows.find? (fun x => x.SKU == "CUBE") = some cubeRec := by decide
  have hconc : computeShipment cubeDb [("CUBE", 3)]
      = some ([mkLine "CUBE" cubeRec 3], 3) := by
    rw [computeShipment]
    simp only [shipLoop, hfindc, List.nil_append, hu]
    norm_num
  refine ⟨?_, hu, hconc⟩
  intro db sel lines T s q r hcomp hmem hq hfind
  rcases shipLoop_some db sel [] lines 0 T hcomp with ⟨lines2, hl, hrel, ht⟩
  rcases forall2_mem_left hrel (s, q) hmem with ⟨l, hlmem, r2, hfind2, hleq⟩
  rw [hfind] at hfind2
  injection hfind2 with hr2
  subst hr2
  subst hleq
  refine ⟨?_, rfl, rfl, rfl⟩
  rw [hl, List.nil_append]
  exact hlmem

/-- Witness for C3 at the cube catalog with quantity 3. -/
theorem shipment_volume_formula_witness :
    (computeShipment cubeDb [("CUBE", 3)]
        = some ([] ++ [mkLine "CUBE" cubeRec 3], 0 + unit_cbm cubeRec * ((3 : ℕ) : ℚ))
      ∧ ("CUBE", 3) ∈ [("CUBE", 3)]
      ∧ 1 ≤ 3
      ∧ cubeDb.rows.find? (fun x => x.SKU == "CUBE") = some cubeRec)
    ∧ (mkLine "CUBE" cubeRec 3 ∈ [] ++ [mkLine "CUBE" cubeRec 3]
      ∧ unit_cbm cubeRec = cubeRec.L_mm * cubeRec.W_mm * cubeRec.H_mm / 1000000000
      ∧ (mkLine "CUBE" cubeRec 3).unitCBM = roundTo 4 (unit_cbm cubeRec)
      ∧ (mkLine "CUBE" cubeRec 3).totalCBM = roundTo 4 (unit_cbm cubeRec * ((3 : ℕ) : ℚ))) :=
  ⟨⟨rfl, by decide, by decide, by decide⟩,
    shipment_volume_formula.1 cubeDb [("CUBE", 3)] ([] ++ [mkLine "CUBE" cubeRec 3])
      (0 + unit_cbm cubeRec * ((3 : ℕ) : ℚ)) "CUBE" 3 cubeRec rfl (by decide) (by decide)
      (by decide)⟩

/-- Claim C4: each container metric reports the raw percent
`(total / cap) * 100` and the raw remaining volume `cap - total`; a total
exactly at capacity yields percent 100 and remaining 0, and a total over
capacity leaves the remaining value plainly negative, never clamped. -/
theorem utilization_formula (total : ℚ) (name : String) (cap : ℚ)
    (hmem : (name, cap) ∈ containers) :
    0 < cap
    ∧ (name, total / cap * 100, cap - total,
        decide (total / cap * 100 ≤ 100)) ∈ utilizationMetrics total
    ∧ (total = cap → total / cap * 100 = 100 ∧ cap - total = 0)
    ∧ (cap < total → cap - total < 0) := by
  simp only [containers, List.mem_cons, List.not_mem_nil, or_false,
    Prod.mk.injEq] at hmem
  have hpos : 0 < cap := by
    rcases hmem with ⟨_, rfl⟩ | ⟨_, rfl⟩ | ⟨_, rfl⟩ <;> norm_num
  refine ⟨hpos, ?_, ?_, ?_⟩
  · rcases hmem with ⟨rfl, rfl⟩ | ⟨rfl, rfl⟩ | ⟨rfl, rfl⟩ <;>
      simp [utilizationMetrics, containers]
  · intro he
    constructor
    · rw [he, div_self (ne_of_gt hpos)]
      norm_num
    · rw [he, sub_self]
  · intro hlt
    exact sub_neg.2 hlt

/-- Witness for C4 at the 20ft container exactly at capacity. -/
theorem utilization_formula_witness :
    (("20ft", (28 : ℚ)) ∈ containers)
    ∧ ((0 : ℚ) < 28
      ∧ ("20ft", (28 : ℚ) / 28 * 100, (28 : ℚ) - 28,
          decide ((28 : ℚ) / 28 * 100 ≤ 100)) ∈ utilizationMetrics 28
      ∧ ((28 : ℚ) = 28 → (28 : ℚ) / 28 * 100 = 100 ∧ (28 : ℚ) - 28 = 0)
      ∧ ((28 : ℚ) < 28 → (28 : ℚ) - 28 < 0)) :=
  ⟨by decide, utilization_formula 28 "20ft" 28 (by decide)⟩

/-- Claim C7: a selected SKU with no matching catalog row makes the
shipment loop die (the `.iloc[0]` lookup on an empty frame raises
`IndexError`, modelled `none`) instead of excluding the SKU with a
warning; even the valid entries of the selection are lost. -/
theorem missing_sku_selection_crashes :
    cubeDb.rows.find? (fun x => x.SKU == "X") = none
    ∧ computeShipment cubeDb [("X", 1)] = none
    ∧ computeShipment cubeDb [("CUBE", 3), ("X", 1)] = none := by decide

/-- Claim C5 counterexample: a whitespace-only SKU (a single space) is
truthy for `if f_sku:`, so the submission reports no error, mutates the
catalog and persists the result — the claim's "empty or blank
(whitespace-only)" failure condition does not hold for blank SKUs. -/
theorem upsert_blank_sku_counterexample :
    spaceRec.SKU = " "
    ∧ (skuFormSubmit emptyDb FileState.missing spaceRec).2.2 = none
    ∧ (skuFormSubmit emptyDb FileState.missing spaceRec).1.rows = [spaceRec]
    ∧ (skuFormSubmit emptyDb FileState.missing spaceRec).2.1
        = save_data ⟨canonicalColumns, [spaceRec]⟩ := by
  refine ⟨rfl, ?_, ?_, ?_⟩ <;> decide

/-- Claim C5 (amended): upsert fails validation exactly when the SKU is
the empty string; the failure is reported as the error message and the
catalog and persisted file are left completely unchanged.  A
whitespace-only SKU passes the check and is upserted as a normal value. -/
theorem upsert_empty_sku_rejected (db : DataFrame) (file : FileState) (r : SkuRecord)
    (h : r.SKU = "") :
    skuFormSubmit db file r = (db, file, some "SKU Code is required.") := by
  rw [skuFormSubmit, if_neg]
  intro hne
  exact hne h

/-- Witness for the amended C5 at a concrete empty-SKU submission. -/
theorem upsert_empty_sku_rejected_witness :
    blankRec.SKU = ""
    ∧ skuFormSubmit emptyDb FileState.missing blankRec
        = (emptyDb, FileState.missing, some "SKU Code is required.") :=
  ⟨rfl, upsert_empty_sku_rejected emptyDb FileState.missing blankRec rfl⟩

/-- Claim C6 counterexample: with a single line of exact volume 0.00012
CBM (= 3/25000), the aggregate Total Load is displayed at three decimal
places, giving 0.000, which is not the four-decimal rounding 0.0001 —
so the aggregate volume reported for display is not rounded to 4
decimal places. -/
theorem aggregate_display_counterexample :
    computeShipment smallDb [("S", 1)] = some ([mkLine "S" smallRec 1], 3/25000)
    ∧ displayTotalLoad (3/25000) = 0
    ∧ roundTo 4 (3/25000) = 1/10000
    ∧ (0 : ℚ) ≠ 1/10000 := by
  have hfind : smallDb.rows.find? (fun x => x.SKU == "S") = some smallRec := by decide
  refine ⟨?_, ?_, ?_, by norm_num⟩
  · rw [computeShipment]
    simp only [shipLoop, hfind, List.nil_append]
    norm_num [unit_cbm, smallRec]
  · norm_num [displayTotalLoad, roundTo, roundHalfEven]
  · norm_num [roundTo, roundHalfEven]

/-- Claim C6 (amended): in any successful calculator run, each displayed
line carries its volumes rounded to 4 decimals and its weight to 2; the
aggregate Total Load is displayed rounded to 3 decimal places; and the
utilization metrics are computed from the unrounded aggregate, which is
the exact sum of the per-line volumes. -/
theorem display_rounding (db : DataFrame) (sel : List (String × ℕ))
    (lines : List ShipmentLine) (dt : ℚ) (metrics : List (String × ℚ × ℚ × Bool))
    (h : calculatorTab db sel = some (lines, dt, metrics)) :
    (∀ l ∈ lines, ∃ (s : String) (q : ℕ) (r : SkuRecord),
        db.rows.find? (fun x => x.SKU == s) = some r
        ∧ l.unitCBM = roundTo 4 (unit_cbm r)
        ∧ l.totalCBM = roundTo 4 (unit_cbm r * q)
        ∧ l.totalWeightKg = roundTo 2 (r.Weight_kg * q))
    ∧ dt = roundTo 3 ((sel.map (exactLine db)).sum)
    ∧ metrics = utilizationMetrics ((sel.map (exactLine db)).sum) := by
  rw [calculatorTab] at h
  cases hcomp : computeShipment db sel with
  | none => rw [hcomp] at h; cases h
  | some p =>
    obtain ⟨lines0, T⟩ := p
    rw [hcomp] at h
    simp only [Option.some.injEq, Prod.mk.injEq] at h
    obtain ⟨h1, h2, h3⟩ := h
    rcases shipLoop_some db sel [] lines0 0 T hcomp with ⟨lines2, hl, hrel, ht⟩
    rw [List.nil_append] at hl
    have hT : T = (sel.map (exactLine db)).sum := by rw [ht, zero_add]
    refine ⟨?_, ?_, ?_⟩
    · intro l hlmem
      rw [← h1, hl] at hlmem
      rcases forall2_mem_right hrel l hlmem with ⟨p2, _, r, hfind, hleq⟩
      exact ⟨p2.1, p2.2, r, hfind, by rw [hleq]; rfl, by rw [hleq]; rfl,
        by rw [hleq]; rfl⟩
    · rw [← h2, displayTotalLoad, hT]
    · rw [← h3, hT]

/-- Witness for the amended C6 at the small catalog. -/
theorem display_rounding_witness :
    calculatorTab smallDb [("S", 1)]
        = some ([] ++ [mkLine "S" smallRec 1],
            displayTotalLoad (0 + unit_cbm smallRec * ((1 : ℕ) : ℚ)),
            utilizationMetrics (0 + unit_cbm smallRec * ((1 : ℕ) : ℚ)))
    ∧ ((∀ l ∈ [] ++ [mkLine "S" smallRec 1], ∃ (s : String) (q : ℕ) (r : SkuRecord),
          smallDb.rows.find? (fun x => x.SKU == s) = some r
          ∧ l.unitCBM = roundTo 4 (unit_cbm r)
          ∧ l.totalCBM = roundTo 4 (unit_cbm r * q)
          ∧ l.totalWeightKg = roundTo 2 (r.Weight_kg * q))
      ∧ displayTotalLoad (0 + unit_cbm smallRec * ((1 : ℕ) : ℚ))
          = roundTo 3 (([("S", 1)].map (exactLine smallDb)).sum)
      ∧ utilizationMetrics (0 + unit_cbm smallRec * ((1 : ℕ) : ℚ))
          = utilizationMetrics (([("S", 1)].map (exactLine smallDb)).sum)) :=
  ⟨rfl, display_rounding smallDb [("S", 1)] ([] ++ [mkLine "S" smallRec 1])
      (displayTotalLoad (0 + unit_cbm smallRec * ((1 : ℕ) : ℚ)))
      (utilizationMetrics (0 + unit_cbm smallRec * ((1 : ℕ) : ℚ))) rfl⟩

/-- Claim C10: the Confirm Bulk Import handler validates nothing per row:
whatever row is the last occurrence of its SKU in the uploaded table —
including a row whose SKU is the empty string — survives into the stored
catalog, and the combined table is persisted as-is; by contrast the
sku_form upsert path rejects an empty SKU and leaves the catalog
unchanged. -/
theorem bulk_import_no_validation :
    (∀ (db : DataFrame) (bulk : List SkuRecord) (s : String) (r : SkuRecord),
        bulk.reverse.find? (fun x => x.SKU == s) = some r →
        (bulkImport db bulk).1.rows.find? (fun x => x.SKU == s) = some r)
    ∧ (∀ (db : DataFrame) (bulk : List SkuRecord),
        (bulkImport db bulk).2 = save_data (bulkImport db bulk).1)
    ∧ (bulkImport emptyDb [blankRec]).1.rows = [blankRec]
    ∧ blankRec.SKU = ""
    ∧ (skuFormSubmit emptyDb FileState.missing blankRec).2.2
        = some "SKU Code is required."
    ∧ (skuFormSubmit emptyDb FileState.missing blankRec).1 = emptyDb := by
  refine ⟨?_, fun db bulk => rfl, by decide, rfl, by decide, by decide⟩
  intro db bulk s r h
  show (merge db.rows bulk).find? (fun x => x.SKU == s) = some r
  rw [merge, dedupLast_find, List.reverse_append, List.find?_append, h]
  rfl

/-- Witness for C10's conditional part at a blank-SKU upload. -/
theorem bulk_import_no_validation_witness :
    ([blankRec].reverse.find? (fun x => x.SKU == "") = some blankRec)
    ∧ (bulkImport emptyDb [blankRec]).1.rows.find? (fun x => x.SKU == "")
        = some blankRec :=
  ⟨by decide, bulk_import_no_validation.1 emptyDb [blankRec] "" blankRec (by decide)⟩
